import Mathlib

/-!
Verification of the AgentsVille trip-planner utility module (`project_lib.py`).

The development shallowly embeds the two core components of the module:

* the mocked data-store functions `call_activities_api_mocked`,
  `call_activity_by_id_api_mocked` and `call_weather_api_mocked` together with
  their seed datasets `ACTIVITY_CALENDAR` and `WEATHER_FORECAST`;
* the `ChatAgent` class (`__init__`, `add_message`, `reset`, `get_response`,
  `chat`) and `do_chat_completion`.

Python's mutable-list semantics of transcripts (a class-level default list plus
per-instance lists allocated by `reset`) is embedded with an explicit store of
message lists indexed by natural-number references; every mutating operation
threads the store.  `print` diagnostics of the data-store functions are
embedded as an explicit list of emitted lines in the result.  Exceptions are
embedded with `Except`; operations that may both mutate and raise return the
store at raise time together with the `Except` value, mirroring the fact that
a Python exception does not roll back prior mutations.
-/

/-! ## Python string helpers -/

/-- Characters counted as whitespace by Python's `str.strip()` (ASCII part). -/
def isPyWhitespaceChar (c : Char) : Bool :=
  c = ' ' || c = '\t' || c = '\n' || c = '\r' || c = '\x0b' || c = '\x0c'

/-- Python `str.strip()`: drop leading and trailing whitespace. -/
def pyStrip (s : String) : String :=
  String.mk (((s.data.dropWhile isPyWhitespaceChar).reverse.dropWhile isPyWhitespaceChar).reverse)

/-- Space or tab, the characters `textwrap.dedent` treats as indentation. -/
def isSpaceOrTab (c : Char) : Bool :=
  c = ' ' || c = '\t'

/-- Split a character list at newline characters (Python `text.split("\n")`). -/
def splitLines : List Char → List (List Char)
  | [] => [[]]
  | '\n' :: rest => [] :: splitLines rest
  | c :: rest =>
    match splitLines rest with
    | l :: ls => (c :: l) :: ls
    | [] => [[c]]

/-- Rejoin lines with newline characters. -/
def joinLines : List (List Char) → List Char
  | [] => []
  | [l] => l
  | l :: ls => l ++ '\n' :: joinLines ls

/-- Longest common prefix of two character lists (the margin-merging step of
`textwrap.dedent`). -/
def commonPrefix : List Char → List Char → List Char
  | x :: xs, y :: ys => if x = y then x :: commonPrefix xs ys else []
  | _, _ => []

/-- Python `textwrap.dedent`: normalise whitespace-only lines to empty lines,
compute the common leading space/tab margin of the remaining non-empty lines,
and remove that margin from every line. -/
def dedent (text : String) : String :=
  let lines := splitLines text.data
  let lines := lines.map (fun l => if l ≠ [] ∧ l.all isSpaceOrTab = true then [] else l)
  let indents := (lines.filter (fun l => l ≠ [])).map (fun l => l.takeWhile isSpaceOrTab)
  let margin :=
    match indents with
    | [] => []
    | i :: is => is.foldl commonPrefix i
  let lines := lines.map (fun l => if margin.isPrefixOf l = true then l.drop margin.length else l)
  String.mk (joinLines lines)

/-- Python `str.startswith`. -/
def pyStartsWith (s pre : String) : Bool :=
  pre.data.isPrefixOf s.data

/-- Lexicographic comparison of character lists by code point, Python's `<`
on strings. -/
def charListLt : List Char → List Char → Bool
  | _, [] => false
  | [], _ :: _ => true
  | a :: as, b :: bs =>
    if a.toNat < b.toNat then true
    else if b.toNat < a.toNat then false
    else charListLt as bs

/-- Python `a < b` on strings. -/
def pyStrLt (a b : String) : Bool :=
  charListLt a.data b.data

/-- Truthiness of an optional Python string (`None` and `""` are falsy). -/
def optStrTruthy (o : Option String) : Bool :=
  match o with
  | some s => !(s == "")
  | none => false

/-- Truthiness of an optional Python list (`None` and `[]` are falsy). -/
def optListTruthy (o : Option (List String)) : Bool :=
  match o with
  | some l => !l.isEmpty
  | none => false

/-- The string value of an optional string (only used under a truthiness guard,
where the option is `some`). -/
def optStrVal (o : Option String) : String :=
  o.getD ""

/-- Python `str(...)` of an optional string, as used in f-string diagnostics
(`None` renders as `"None"`). -/
def pyStr (o : Option String) : String :=
  match o with
  | some s => s
  | none => "None"

/-- Python `x or y` on optional strings: `x` is kept when it is truthy
(not `None` and not empty), otherwise `y` is used. -/
def pyOrStrOpt (x y : Option String) : Option String :=
  match x with
  | some s => if s = "" then y else some s
  | none => y

/-- Python `x or y` where `x` defaults a missing string (used for `name` and
`system_prompt` in `ChatAgent.__init__`). -/
def pyOrStr (x : Option String) (y : String) : String :=
  match x with
  | some s => if s = "" then y else s
  | none => y

/-! ## The `%Y-%m-%d` validation performed by `datetime.datetime.strptime`

CPython's `_strptime` matches `%Y` against exactly four digits, `%m` against
the regex `1[0-2]|0[1-9]|[1-9]` and `%d` against `3[01]|[12]\d|0[1-9]|[1-9]`
(alternatives tried in that order), requires the whole string to be consumed,
and then constructing the date raises `ValueError` unless `1 <= year` and the
day fits the month. -/

def isAsciiDigit (c : Char) : Bool :=
  '0' ≤ c && c ≤ '9'

def digitVal (c : Char) : Nat :=
  c.toNat - 48

def isLeapYear (y : Nat) : Bool :=
  y % 4 = 0 && (y % 100 ≠ 0 || y % 400 = 0)

def daysInMonth (y m : Nat) : Nat :=
  if m = 2 then (if isLeapYear y then 29 else 28)
  else if m = 4 ∨ m = 6 ∨ m = 9 ∨ m = 11 then 30
  else 31

/-- Match the `%m` regex `1[0-2]|0[1-9]|[1-9]` at the head of the input,
returning the month value and the remaining input. -/
def parseMonth : List Char → Option (Nat × List Char)
  | '1' :: c :: rest =>
    if '0' ≤ c ∧ c ≤ '2' then some (10 + digitVal c, rest)
    else some (1, c :: rest)
  | '0' :: c :: rest =>
    if '1' ≤ c ∧ c ≤ '9' then some (digitVal c, rest) else none
  | c :: rest =>
    if '1' ≤ c ∧ c ≤ '9' then some (digitVal c, rest) else none
  | [] => none

/-- Match the `%d` regex `3[01]|[12]\d|0[1-9]|[1-9]` at the head of the input,
returning the day value and the remaining input. -/
def parseDay : List Char → Option (Nat × List Char)
  | '3' :: c :: rest =>
    if c = '0' ∨ c = '1' then some (30 + digitVal c, rest)
    else some (3, c :: rest)
  | c1 :: c2 :: rest =>
    if (c1 = '1' ∨ c1 = '2') ∧ isAsciiDigit c2 = true then
      some (10 * digitVal c1 + digitVal c2, rest)
    else if c1 = '0' ∧ ('1' ≤ c2 ∧ c2 ≤ '9') then some (digitVal c2, rest)
    else if '1' ≤ c1 ∧ c1 ≤ '9' then some (digitVal c1, c2 :: rest)
    else none
  | [c] =>
    if '1' ≤ c ∧ c ≤ '9' then some (digitVal c, []) else none
  | [] => none

/-- `True` exactly when `datetime.datetime.strptime(s, "%Y-%m-%d")` succeeds. -/
def strptimeValidYMD (s : String) : Bool :=
  match s.data with
  | y1 :: y2 :: y3 :: y4 :: '-' :: rest =>
    if isAsciiDigit y1 && isAsciiDigit y2 && isAsciiDigit y3 && isAsciiDigit y4 then
      let year := 1000 * digitVal y1 + 100 * digitVal y2 + 10 * digitVal y3 + digitVal y4
      match parseMonth rest with
      | some (month, '-' :: rest2) =>
        match parseDay rest2 with
        | some (day, []) => decide (1 ≤ year) && decide (day ≤ daysInMonth year month)
        | _ => false
      | _ => false
    else false
  | _ => false

/-! ## Data model of the mock data store -/

/-- An activity record of the seeded `ACTIVITY_CALENDAR`. -/
structure Activity where
  activity_id : String
  name : String
  start_time : String
  end_time : String
  location : String
  description : String
  price : Nat
  related_interests : List String
deriving DecidableEq, Inhabited

/-- A weather record of the seeded `WEATHER_FORECAST`. -/
structure Forecast where
  date : String
  city : String
  temperature : Int
  temperature_unit : String
  condition : String
  description : String
deriving DecidableEq

/-- The weather conditions flagged as inclement (`INCLIMATE_WEATHER_CONDITIONS`). -/
def INCLIMATE_WEATHER_CONDITIONS : List String := ["thunderstorm", "rainy"]

def ACTIVITY_CALENDAR : List Activity := [
  { activity_id := "event-2025-06-10-0",
    name := "FutureTech Breakfast Meet-Up",
    start_time := "2025-06-10 09:00",
    end_time := "2025-06-10 11:00",
    location := "The Innovation Atrium, Tech District, AgentsVille",
    description := "Join fellow technology enthusiasts for a dynamic morning at the FutureTech Breakfast Meet-Up! Dive into the latest trends in tech, gadget demos, and networking opportunities over coffee and fresh pastries. Held indoors at the spacious Innovation Atrium, this event is perfect for tech lovers eager to exchange ideas and discover new possibilities in a comfortable, modern setting.",
    price := 20,
    related_interests := ["technology"] },
  { activity_id := "event-2025-06-10-1",
    name := "Serve & Savor: Tennis and Taste Luncheon",
    start_time := "2025-06-10 12:00",
    end_time := "2025-06-10 13:30",
    location := "The Grand Racquet Terrace, AgentsVille",
    description := "Join us for \x27Serve & Savor,\x27 the ultimate crossover event for cooking and tennis enthusiasts in AgentsVille! Kick off your lunch hour with a friendly round of doubles on our outdoor courts, then unwind with a hands-on cooking workshop led by a local chef, where you\x27ll prepare and enjoy delicious energy-boosting recipes. Whether you come for the sport or the flavors, this energizing luncheon celebrates both passions in a lively outdoor setting. Ideal for anyone who loves to play, cook, or simply savor fresh food and fun!",
    price := 20,
    related_interests := ["cooking", "tennis"] },
  { activity_id := "event-2025-06-10-2",
    name := "Artful Athletics: Paint & Play Extravaganza",
    start_time := "2025-06-10 15:00",
    end_time := "2025-06-10 17:00",
    location := "Creative Courts Park, AgentsVille",
    description := "Join us for an exciting afternoon at Creative Courts Park, where the worlds of art and sports collide! At \x27Artful Athletics: Paint & Play Extravaganza\x27, you\x27ll participate in collaborative outdoor murals inspired by your favorite sports, and then get moving with fun, friendly sports mini-games. Whether you love painting or playing, this event celebrates creativity, teamwork, and the joy of movement under the open sky. Perfect for art lovers and sports enthusiasts alike—come ready to express yourself and get active! (Event is held outdoors; in case of rain, we move indoors to the Community Gym nearby.)",
    price := 15,
    related_interests := ["art", "sports"] },
  { activity_id := "event-2025-06-10-3",
    name := "AgentsVille Twilight Writing Escape",
    start_time := "2025-06-10 19:00",
    end_time := "2025-06-10 21:00",
    location := "The Ink Loft, 12 Quill Lane, AgentsVille",
    description := "Join fellow writers for an inspiring evening at The Ink Loft, where words flow as freely as the coffee! This writing-themed event welcomes all—novelists, poets, bloggers, or anyone with a passion for storytelling. Set indoors in AgentsVille\x27s coziest lounge, enjoy writing games, group prompts, and opportunities to read your work aloud. Connect, create, and celebrate the art of writing in this creative indoor haven.",
    price := 15,
    related_interests := ["writing", "reading", "art"] },
  { activity_id := "event-2025-06-11-0",
    name := "Morning Groove Dance Party",
    start_time := "2025-06-11 09:00",
    end_time := "2025-06-11 10:30",
    location := "Rhythm Hall, Center Plaza, AgentsVille",
    description := "Start your day with energy and joy at the Morning Groove Dance Party! This lively event welcomes dancers of all levels to join a vibrant indoor session filled with upbeat music and fun routines. Whether you love modern pop, Latin beats, or classic disco, our dance instructors will guide you to move and groove. Connect with fellow dance lovers in the colorful atmosphere of Rhythm Hall. Perfect for fans of dancing, music, and fitness. Let the rhythm move you! (Indoor event.)",
    price := 15,
    related_interests := ["dancing", "music", "fitness"] },
  { activity_id := "event-2025-06-11-1",
    name := "Tech Lunch & Learn: AI Frontiers",
    start_time := "2025-06-11 12:00",
    end_time := "2025-06-11 13:30",
    location := "The Digital Atrium, AgentsVille",
    description := "Join fellow tech enthusiasts for a dynamic lunchtime event exploring the future of artificial intelligence! Held indoors at The Digital Atrium, this Tech Lunch & Learn features engaging lightning talks, interactive demos, and networking opportunities all centered around technology and innovation. Enjoy light lunch fare as you connect with others passionate about technology, AI, and the digital world. Whether you\x27re a seasoned developer or just curious about tech, this event is for you! Related interests: technology, music (sound tech demos), photography (AI imaging), writing (AI creativity).",
    price := 20,
    related_interests := ["technology", "music", "photography", "writing"] },
  { activity_id := "event-2025-06-11-2",
    name := "AgentsVille Art & Music Fusion Fest",
    start_time := "2025-06-11 15:00",
    end_time := "2025-06-11 17:30",
    location := "The Echo Gardens Amphitheater, AgentsVille",
    description := "Immerse yourself in an unforgettable afternoon at the Echo Gardens Amphitheater, where the vibrant worlds of art and music collide! Surrounded by lush gardens under the open sky, enjoy live performances from talented local musicians while exploring an interactive outdoor art gallery featuring works from AgentsVille\x27s creative community. This engaging outdoor event is perfect for art and music enthusiasts who love to be inspired and connect with fellow creatives. Don\x27t miss out on the fusion of melodies and colors in a relaxing, friendly atmosphere!",
    price := 18,
    related_interests := ["art", "music"] },
  { activity_id := "event-2025-06-11-3",
    name := "Palette & Palate: Art Meets Cooking Experience",
    start_time := "2025-06-11 18:30",
    end_time := "2025-06-11 20:30",
    location := "The Creative Canvas Studio, Artisanal Lane, AgentsVille",
    description := "Immerse yourself in a colorful evening where art and cooking blend together! At \x27Palette & Palate,\x27 participants will begin indoors at The Creative Canvas Studio with a guided session to paint their own culinary-inspired masterpiece. Afterwards, a local chef will lead an interactive cooking class, teaching you how to craft vibrant, edible works of art. Whether you\x27re an art enthusiast, a food lover, or both, this creative night is perfect for socializing and expressing yourself through color and flavor! All materials and ingredients are provided. This event is held indoors and welcomes all experience levels in art and cooking.",
    price := 25,
    related_interests := ["art", "cooking"] },
  { activity_id := "event-2025-06-12-0",
    name := "AgentsVille Nature & Green Thumb Adventure",
    start_time := "2025-06-12 08:00",
    end_time := "2025-06-12 10:00",
    location := "Echo Ridge Botanical Trails, AgentsVille",
    description := "Join fellow nature enthusiasts for a morning of outdoor adventure that blends hiking and gardening! Explore the picturesque Echo Ridge trails on a gentle hike while expert guides introduce you to local plant life and teach hands-on gardening tips along the way. Get your hands dirty with mini-plantings and learn how to cultivate native species. Perfect for lovers of both hiking and gardening, this outdoor event promises fresh air, community, and green inspiration.",
    price := 15,
    related_interests := ["hiking", "gardening"] },
  { activity_id := "event-2025-06-12-1",
    name := "Soundtrack Picnic: Lunchtime Movies & Melodies",
    start_time := "2025-06-12 12:00",
    end_time := "2025-06-12 13:30",
    location := "Starlight Amphitheater, AgentsVille",
    description := "Experience the magic of classic movie scenes paired with live music at the outdoor Starlight Amphitheater! Bring your lunch and relax on the lawn as musicians perform iconic film soundtracks while selected clips light up our open-air screen. Perfect for movie buffs and music lovers alike, this engaging event celebrates both arts in a sunny lunchtime setting. In case of rain, the event will move indoors to the adjacent Harmony Hall. Come for the tunes, stay for the cinematic wonder!",
    price := 15,
    related_interests := ["movies", "music"] },
  { activity_id := "event-2025-06-12-2",
    name := "Trail Tales: Writing & Hiking Adventure",
    start_time := "2025-06-12 14:00",
    end_time := "2025-06-12 16:30",
    location := "Whispering Pines Trailhead, AgentsVille",
    description := "Embark on an outdoor writing journey with fellow enthusiasts on the scenic trails of AgentsVille! Trail Tales is a unique event that combines hiking through beautiful pine forests and creative writing activities inspired by nature. Whether you love writing poetry, stories, or journal entries, this event is perfect for those who enjoy both writing and hiking. You\x27ll have guided prompts, collaborative exercises, and plenty of fresh air. Suitable for writers of all levels who want to fuel their creativity while exploring the outdoors.",
    price := 20,
    related_interests := ["writing", "hiking"] },
  { activity_id := "event-2025-06-12-3",
    name := "Tech & Film Fusion Night",
    start_time := "2025-06-12 19:00",
    end_time := "2025-06-12 21:30",
    location := "Virtual Reality Theater, Silicon Plaza, AgentsVille",
    description := "Dive into an immersive evening where the magic of movies meets the latest in technology! Join fellow movie buffs and tech enthusiasts for a special screening of cutting-edge sci-fi short films, followed by an interactive panel with local filmmakers and VR technologists. Experience the future of entertainment and discuss how technology is transforming the world of cinema. This exciting, indoor event at the Virtual Reality Theater is perfect for anyone interested in technology and movies.",
    price := 15,
    related_interests := ["technology", "movies"] },
  { activity_id := "event-2025-06-13-0",
    name := "Laugh & Groove: Morning Comedy Dance Bash",
    start_time := "2025-06-13 09:00",
    end_time := "2025-06-13 10:30",
    location := "The Jiving Parlor, Central Plaza, AgentsVille",
    description := "Start your day with big laughs and even bigger moves at the Laugh & Groove Morning Comedy Dance Bash! Hosted indoors at The Jiving Parlor in the heart of AgentsVille, this lively event blends hilarious stand-up performances with upbeat group dance sessions. Whether you love to dance, enjoy comedy, or just want a fun way to kick off your day, you\x27ll find your place here. Perfect for fans of dancing and comedy alike—come ready to laugh, groove, and connect!",
    price := 15,
    related_interests := ["dancing", "comedy"] },
  { activity_id := "event-2025-06-13-1",
    name := "Trails & Tales: Lunchtime Hiking and Writing Retreat",
    start_time := "2025-06-13 12:00",
    end_time := "2025-06-13 13:30",
    location := "Whispering Pines Trailhead, AgentsVille",
    description := "Step into the great outdoors for Trails & Tales, a unique lunchtime event combining invigorating hiking and creative writing in the beautiful forests of AgentsVille. Take in the scenery on a guided hike, pausing at scenic spots to reflect and write with fellow nature-loving writers. Whether you\x27re an avid hiker, passionate about writing, or want to creatively recharge in nature, this outdoor adventure is for you! Please note: This event is outdoors. All writing materials and a light snack provided.",
    price := 15,
    related_interests := ["hiking", "writing"] },
  { activity_id := "event-2025-06-13-2",
    name := "Art & Lens: Outdoor Creative Walk",
    start_time := "2025-06-13 15:00",
    end_time := "2025-06-13 17:00",
    location := "Sunset Promenade Art Park, AgentsVille",
    description := "Join us for \x27Art & Lens: Outdoor Creative Walk\x27, where art lovers and photography enthusiasts unite! Explore the vibrant scenery of Sunset Promenade Art Park in AgentsVille, capturing inspiring moments and sketching as you go. Bring your camera, sketchbook, or both, and enjoy a guided creative journey with plenty of opportunities to connect, learn, and create. This engaging event is held entirely outdoors and is perfect for anyone passionate about art and photography.",
    price := 15,
    related_interests := ["art", "photography"] },
  { activity_id := "event-2025-06-13-3",
    name := "Sunset Groove Hike",
    start_time := "2025-06-13 18:00",
    end_time := "2025-06-13 20:00",
    location := "Starlit Ridge, AgentsVille",
    description := "Experience the perfect fusion of adventure and rhythm at the Sunset Groove Hike! Join fellow hiking and dancing enthusiasts as we traverse the scenic trails of Starlit Ridge just as the sun sets. Halfway through our energizing hike, we\x27ll stop at a panoramic viewpoint for a lively group dance session led by a professional instructor, with music and views to inspire all. This outdoor event combines the joy of hiking with the fun of dancing, offering a memorable evening in nature. All experience levels are welcome—let\x27s move and groove under the open sky!",
    price := 15,
    related_interests := ["hiking", "dancing"] },
  { activity_id := "event-2025-06-14-0",
    name := "Sunrise Nature & Plant Walk",
    start_time := "2025-06-14 08:00",
    end_time := "2025-06-14 10:00",
    location := "Emerald Meadows Park, AgentsVille",
    description := "Experience the perfect blend of hiking and gardening! Join us for a refreshing outdoor morning hike through scenic Emerald Meadows Park, where we\x27ll stop along the way to learn about local plants and do hands-on gardening activities. Whether you\x27re a hiking enthusiast or a plant lover, this outdoor adventure is tailored for you. Come connect with nature and fellow enthusiasts while nurturing both your body and the local flora.",
    price := 15,
    related_interests := ["hiking", "gardening"] },
  { activity_id := "event-2025-06-14-1",
    name := "Lunchtime Bloom: Community Garden Party",
    start_time := "2025-06-14 12:00",
    end_time := "2025-06-14 13:30",
    location := "Green Haven Park, AgentsVille",
    description := "Join us for a vibrant outdoor gardening event in the heart of AgentsVille! \x27Lunchtime Bloom\x27 is the perfect gathering for plant lovers and nature enthusiasts. Learn hands-on gardening tips, participate in a flower-planting session, and connect with fellow green thumbs. Enjoy light refreshments in the fresh air while exploring the world of gardening. Whether you\x27re a seasoned gardener or just getting started, this lively outdoor event promises inspiration and fun for all ages.",
    price := 15,
    related_interests := ["gardening", "fitness"] },
  { activity_id := "event-2025-06-14-2",
    name := "AgentsVille Summer Garden Party",
    start_time := "2025-06-14 14:00",
    end_time := "2025-06-14 16:30",
    location := "The Blooming Courtyard, AgentsVille",
    description := "Join us for an afternoon of blossoming fun at the AgentsVille Summer Garden Party! Whether you\x27re a seasoned gardener or just getting started, this outdoor event invites everyone to dig in and grow together. Explore hands-on workshops, plant your own flowers to take home, enjoy garden games, and connect with fellow plant enthusiasts. The event will celebrate all things green, combining education, creativity, and relaxation for anyone interested in gardening and nature. Perfect for families, friends, and solo adventurers who love the outdoors and greenery!",
    price := 15,
    related_interests := ["gardening", "art", "fitness"] },
  { activity_id := "event-2025-06-14-3",
    name := "Dancing Through Prose: A Creative Movement & Writing Evening",
    start_time := "2025-06-14 19:00",
    end_time := "2025-06-14 21:00",
    location := "Writers\x27 Waltz Hall, AgentsVille",
    description := "Join us for \x27Dancing Through Prose,\x27 a lively evening where the worlds of dance and writing beautifully intersect! Guided by local choreographers and creative writers, you\x27ll be inspired by movement to spark your written words, and then let the rhythm of your prose take you back to the dance floor. This event is perfect for anyone who loves dancing and writing, no matter your experience level. Held indoors at the charming Writers\x27 Waltz Hall, you\x27ll enjoy a vibrant and supportive atmosphere where your imagination can truly move. Don\x27t miss this unique celebration of movement and storytelling!",
    price := 15,
    related_interests := ["dancing", "writing"] },
  { activity_id := "event-2025-06-15-0",
    name := "Writers\x27 Sunrise Workshop",
    start_time := "2025-06-15 09:00",
    end_time := "2025-06-15 11:00",
    location := "Starlight Literary Cafe, AgentsVille",
    description := "Kickstart your morning creativity at the Starlight Literary Cafe! Join fellow writers for an inspiring writing workshop surrounded by the cozy ambiance of our indoor cafe. Whether you\x27re working on a novel, exploring poetry, or journaling, this event is perfect for connecting with like-minded enthusiasts. Enjoy writing prompts, group discussions, and plenty of coffee. Ideal for anyone interested in writing, reading, and art. (Indoors event)",
    price := 15,
    related_interests := ["writing", "reading", "art"] },
  { activity_id := "event-2025-06-15-1",
    name := "Lunchtime Groove: AgentsVille Dance Social",
    start_time := "2025-06-15 12:00",
    end_time := "2025-06-15 13:30",
    location := "Sunbeam Community Hall, Downtown AgentsVille",
    description := "Join us for Lunchtime Groove, AgentsVille\x27s exciting indoor dance social! Shake off your midday blues with an hour and a half of energetic dancing, fun choreography, and great music. Whether you\x27re a beginner or a seasoned dancer, enjoy learning new moves and meeting fellow dance lovers. Related interests: dancing, music, fitness.",
    price := 15,
    related_interests := ["dancing", "music", "fitness"] },
  { activity_id := "event-2025-06-15-2",
    name := "AgentsVille Summer Dance Jam",
    start_time := "2025-06-15 15:00",
    end_time := "2025-06-15 17:00",
    location := "The Groove Pavilion, Central Park, AgentsVille",
    description := "Get ready to dance the afternoon away at AgentsVille\x27s Summer Dance Jam! Whether you\x27re a dancing enthusiast or just looking to bust a move, join us at the spacious, open-air Groove Pavilion in Central Park. Expect a lively mix of pop, salsa, and swing tunes, interactive group lessons, and fun dance-offs. This outdoor event welcomes dancers of all levels and ages. Make new friends, learn new moves, and celebrate your love for music and dancing!",
    price := 15,
    related_interests := ["dancing", "music", "fitness"] },
  { activity_id := "event-2025-06-15-3",
    name := "Twilight Tennis Rally",
    start_time := "2025-06-15 18:00",
    end_time := "2025-06-15 20:00",
    location := "Grand Courts at Sunfield Park, AgentsVille",
    description := "Join us for a thrilling outdoor evening of tennis under the setting sun at the Grand Courts! Whether you\x27re a beginner or a seasoned player, this event offers friendly matches, skill challenges, and social time with fellow tennis enthusiasts. Embrace the fresh air, lively music, and exciting giveaways all themed around the love of tennis. Don\x27t miss your chance to rally, serve, and have fun! Perfect for those passionate about tennis, fitness, and meeting new people.",
    price := 15,
    related_interests := ["tennis", "fitness", "music"] }
]

def WEATHER_FORECAST : List Forecast := [
  { date := "2025-06-10",
    city := "AgentsVille",
    temperature := 31,
    temperature_unit := "celsius",
    condition := "clear",
    description := "A bright and sunny day in AgentsVille with clear skies and warm temperatures. Perfect weather for outdoor activities!" },
  { date := "2025-06-11",
    city := "AgentsVille",
    temperature := 34,
    temperature_unit := "celsius",
    condition := "partly cloudy",
    description := "A warm day with periods of sunshine and mixed clouds, making it a perfect opportunity for outdoor activities." },
  { date := "2025-06-12",
    city := "AgentsVille",
    temperature := 28,
    temperature_unit := "celsius",
    condition := "thunderstorm",
    description := "A thunderstorm is expected to roll in during the afternoon, bringing heavy rain and gusty winds. The atmosphere will feel charged with humidity, creating a sultry and dramatic setting as clouds build in the sky." },
  { date := "2025-06-13",
    city := "AgentsVille",
    temperature := 15,
    temperature_unit := "celsius",
    condition := "rainy",
    description := "Cloudy skies with intermittent rain showers throughout the day, accompanied by a cool breeze and a chance of occasional thunderstorms." },
  { date := "2025-06-14",
    city := "AgentsVille",
    temperature := 14,
    temperature_unit := "celsius",
    condition := "rainy",
    description := "A steady rain is expected throughout the day with overcast skies and cool temperatures. Residents should be prepared for slick roads and carry umbrellas." },
  { date := "2025-06-15",
    city := "AgentsVille",
    temperature := 31,
    temperature_unit := "celsius",
    condition := "sunny",
    description := "A bright and sunny day perfect for outdoor activities with no chance of rain." }
]

/-! ## The mocked data-store API -/

/-- The six seeded dates of the supported window. -/
def seededDates : List String :=
  ["2025-06-10", "2025-06-11", "2025-06-12", "2025-06-13", "2025-06-14", "2025-06-15"]

/-- `call_activities_api_mocked(date, city, activity_ids)`.  The returned pair
is (returned list, printed diagnostic lines). -/
def call_activities_api_mocked (date city : Option String)
    (activity_ids : Option (List String)) : List Activity × List String :=
  if optStrTruthy city = true ∧ ¬ city = some "AgentsVille" then ([], [])
  else if optStrTruthy date = true ∧ strptimeValidYMD (optStrVal date) = false then
    ([], ["Invalid date format: " ++ optStrVal date])
  else if optStrTruthy date = true ∧
      (pyStrLt (optStrVal date) "2025-06-10" = true ∨ pyStrLt "2025-06-15" (optStrVal date) = true) then
    ([], ["Date " ++ optStrVal date ++
      " is outside the valid range (2025-06-10 - 2025-06-15)"])
  else
    let activities := ACTIVITY_CALENDAR
    let activities :=
      if optStrTruthy date = true then
        activities.filter (fun event => pyStartsWith event.start_time (optStrVal date))
      else activities
    let activities :=
      if optListTruthy activity_ids = true then
        activities.filter (fun event => (activity_ids.getD []).contains event.activity_id)
      else activities
    let diags :=
      if activities.isEmpty = true then
        ["No activities found for " ++ pyStr date ++ " in " ++ pyStr city ++ "."]
      else []
    (activities, diags)

/-- `call_activity_by_id_api_mocked(activity_id)`: linear scan for the first
matching record; `None` plus a diagnostic when absent. -/
def call_activity_by_id_api_mocked (activity_id : String) : Option Activity × List String :=
  match ACTIVITY_CALENDAR.find? (fun event => event.activity_id == activity_id) with
  | some event => (some event, [])
  | none => (none, ["Event with ID " ++ activity_id ++ " not found."])

/-- `call_weather_api_mocked(date, city)`: the empty-dict result is embedded
as `none`. -/
def call_weather_api_mocked (date city : String) : Option Forecast × List String :=
  if ¬ city = "AgentsVille" then (none, [])
  else if strptimeValidYMD date = false then
    (none, ["Invalid date format: " ++ date])
  else if pyStrLt date "2025-06-10" = true ∨ pyStrLt "2025-06-15" date = true then
    (none, ["Date " ++ date ++ " is outside the valid range (2025-06-10 - 2025-06-15)"])
  else (WEATHER_FORECAST.find? (fun forecast => forecast.date == date), [])

/-! ## The chat agent

A transcript is a Python list object; the store maps a reference (the object's
identity) to its current contents.  The class attribute `ChatAgent.messages`
is the list allocated at module import time, reference `0` in `classStore`. -/

/-- One turn of a conversation transcript. -/
structure Message where
  role : String
  content : String
deriving DecidableEq

/-- The store of allocated transcript lists; a reference is an index. -/
abbrev Store := List (List Message)

/-- Dereference a transcript list. -/
def Store.read (st : Store) (r : Nat) : List Message :=
  st.getD r []

/-- Mutate the transcript list behind a reference. -/
def Store.write (st : Store) (r : Nat) (v : List Message) : Store :=
  st.set r v

/-- Allocate a fresh list object. -/
def Store.alloc (st : Store) (v : List Message) : Store × Nat :=
  (st ++ [v], st.length)

/-- The store as of module import: only the class-level default `messages = []`
exists, at reference `0`. -/
def classStore : Store := [[]]

/-- Embedded Python exceptions. -/
inductive PyError where
  | valueError (msg : String)
  | runtimeError (msg : String)
deriving DecidableEq

/-- A chat-completion response: `error` is present when the API object carries
an `error` attribute, otherwise `content` is `response.choices[0].message.content`. -/
structure CompletionResponse where
  error : Option String
  content : String

/-- The external completion collaborator (an OpenAI client).  `create` is the
default chat-completions path, `parse` the schema-aware
`beta.chat.completions.parse` path; each maps (model, messages) to a response. -/
structure Client where
  create : String → List Message → CompletionResponse
  parse : String → List Message → CompletionResponse

/-- Python `client or other` on optional clients (any client object is truthy). -/
def pyOrClient (x y : Option Client) : Option Client :=
  match x with
  | some c => some c
  | none => y

/-- `do_chat_completion(messages, model, client, **kwargs)`.  The only kwarg
that affects control flow is the presence of `response_format`, embedded as
the flag `has_response_format`. -/
def do_chat_completion (messages : List Message) (model : Option String)
    (client : Option Client) (has_response_format : Bool) : Except PyError String :=
  match client with
  | none => Except.error (PyError.valueError "A valid OpenAI client must be provided.")
  | some cl =>
    match model with
    | none => Except.error (PyError.valueError "A valid model must be provided.")
    | some m =>
      let response :=
        if has_response_format then cl.parse m messages else cl.create m messages
      match response.error with
      | some err =>
        Except.error (PyError.runtimeError ("OpenAI API returned an error: " ++ err))
      | none => Except.ok response.content

/-- A `ChatAgent` instance.  `messages` is the reference held by the instance
attribute of the same name (initially the class-level default, reference 0). -/
structure ChatAgent where
  name : String
  system_prompt : String
  client : Option Client
  model : Option String
  messages : Nat

/-- `ChatAgent.add_message(role, content)`: raises `ValueError` on an invalid
role before any mutation, otherwise appends the turn to the transcript list
(the `print_in_box` rendering is presentation-only and not modelled). -/
def ChatAgent.add_message (st : Store) (a : ChatAgent) (role content : String) :
    Store × Except PyError Unit :=
  if role = "system" ∨ role = "user" ∨ role = "assistant" then
    (st.write a.messages (st.read a.messages ++ [⟨role, content⟩]), Except.ok ())
  else
    (st, Except.error (PyError.valueError ("Invalid role: " ++ role)))

/-- `ChatAgent.reset()`: rebinds `self.messages` to a freshly allocated empty
list, then adds the dedented and stripped system prompt as the sole system
turn. -/
def ChatAgent.reset (st : Store) (a : ChatAgent) : Store × ChatAgent :=
  let system_prompt := pyStrip (dedent a.system_prompt)
  let alloc := st.alloc []
  let a1 := { a with messages := alloc.2 }
  ((ChatAgent.add_message alloc.1 a1 "system" system_prompt).1, a1)

/-- `ChatAgent.__init__(name, system_prompt, client, model)`: fields are set
(with Python `or`-style defaulting for `name`, and the class default kept for
a falsy `system_prompt`), `self.messages` initially denotes the class-level
default list, and `reset()` is called. -/
def ChatAgent.init (st : Store) (name system_prompt : Option String)
    (client : Option Client) (model : Option String) : Store × ChatAgent :=
  ChatAgent.reset st
    { name := pyOrStr name "ChatAgent"
      system_prompt := pyOrStr system_prompt "You are a helpful assistant."
      client := client
      model := model
      messages := 0 }

/-- `ChatAgent.get_response(add_to_messages, model, client, **kwargs)`. -/
def ChatAgent.get_response (st : Store) (a : ChatAgent) (add_to_messages : Bool)
    (model : Option String) (client : Option Client) (has_response_format : Bool) :
    Store × Except PyError String :=
  match do_chat_completion (st.read a.messages) (pyOrStrOpt model a.model)
      (pyOrClient client a.client) has_response_format with
  | Except.error e => (st, Except.error e)
  | Except.ok response =>
    if add_to_messages then
      let r := ChatAgent.add_message st a "assistant" response
      match r.2 with
      | Except.ok _ => (r.1, Except.ok response)
      | Except.error e => (r.1, Except.error e)
    else (st, Except.ok response)

/-- `ChatAgent.chat(user_message, add_to_messages, model, **kwargs)`: appends
the user turn, then delegates to `get_response` (no per-call client). -/
def ChatAgent.chat (st : Store) (a : ChatAgent) (user_message : String)
    (add_to_messages : Bool) (model : Option String) (has_response_format : Bool) :
    Store × Except PyError String :=
  let r := ChatAgent.add_message st a "user" user_message
  match r.2 with
  | Except.ok _ =>
    ChatAgent.get_response r.1 a add_to_messages model none has_response_format
  | Except.error e => (r.1, Except.error e)

/-- A stub collaborator whose completion always answers `"hi"`. -/
def stubHiClient : Client :=
  { create := fun _ _ => { error := none, content := "hi" }
    parse := fun _ _ => { error := none, content := "hi" } }

/-- A stub collaborator whose response always carries an error object. -/
def errClient : Client :=
  { create := fun _ _ => { error := some "boom", content := "" }
    parse := fun _ _ => { error := some "boom", content := "" } }

/-- A sample agent value used to instantiate universally quantified facts. -/
def sampleAgent : ChatAgent :=
  { name := "ChatAgent"
    system_prompt := "You are a helpful assistant."
    client := none
    model := none
    messages := 0 }

/-- The first of two agents constructed in sequence from module start. -/
def agentPair1 : Store × ChatAgent :=
  ChatAgent.init classStore none none none none

/-- The second of two agents constructed in sequence from module start. -/
def agentPair2 : Store × ChatAgent :=
  ChatAgent.init agentPair1.1 none none none none

/-! ## Store lemmas -/

theorem store_read_write_ne (st : Store) (r r' : Nat) (v : List Message) (h : ¬ r = r') :
    (st.write r v).read r' = st.read r' := by
  induction st generalizing r r' with
  | nil => rfl
  | cons x xs ih =>
    cases r with
    | zero =>
      cases r' with
      | zero => exact absurd rfl h
      | succ n => rfl
    | succ m =>
      cases r' with
      | zero => rfl
      | succ n => exact ih m n (fun hh => h (by rw [hh]))

theorem store_read_write_self (st : Store) (r : Nat) (v : List Message) (h : r < st.length) :
    (st.write r v).read r = v := by
  induction st generalizing r with
  | nil => exact absurd h (Nat.not_lt_zero r)
  | cons x xs ih =>
    cases r with
    | zero => rfl
    | succ n => exact ih n (Nat.lt_of_succ_lt_succ h)

theorem store_read_append (st : Store) (v : List Message) (r : Nat) (h : r < st.length) :
    (st ++ [v]).read r = st.read r := by
  induction st generalizing r with
  | nil => exact absurd h (Nat.not_lt_zero r)
  | cons x xs ih =>
    cases r with
    | zero => rfl
    | succ n => exact ih n (Nat.lt_of_succ_lt_succ h)

theorem store_read_append_self (st : Store) (v : List Message) :
    (st ++ [v]).read st.length = v := by
  induction st with
  | nil => rfl
  | cons x xs ih => exact ih

theorem store_write_length (st : Store) (r : Nat) (v : List Message) :
    (st.write r v).length = st.length := by
  simp [Store.write]

/-! ## Characterisations of `reset` and `__init__` -/

theorem reset_spec (st : Store) (a : ChatAgent) :
    ChatAgent.reset st a =
      ((st ++ [[]]).write st.length [⟨"system", pyStrip (dedent a.system_prompt)⟩],
        { a with messages := st.length }) := by
  have hread : (st ++ [[]]).read st.length = [] := store_read_append_self st []
  simp [ChatAgent.reset, ChatAgent.add_message, Store.alloc, hread]

theorem init_spec (st : Store) (n s : Option String) (c : Option Client) (m : Option String) :
    ChatAgent.init st n s c m =
      ChatAgent.reset st
        { name := pyOrStr n "ChatAgent"
          system_prompt := pyOrStr s "You are a helpful assistant."
          client := c
          model := m
          messages := 0 } := rfl

theorem init_messages_eq (st : Store) (n s : Option String) (c : Option Client) (m : Option String) :
    ((ChatAgent.init st n s c m).2).messages = st.length := by
  rw [init_spec, reset_spec]

theorem init_length_eq (st : Store) (n s : Option String) (c : Option Client) (m : Option String) :
    ((ChatAgent.init st n s c m).1).length = st.length + 1 := by
  rw [init_spec, reset_spec]
  simp [Store.write]

theorem reset_transcript (st : Store) (a : ChatAgent) :
    ((ChatAgent.reset st a).1).read ((ChatAgent.reset st a).2).messages
      = [⟨"system", pyStrip (dedent a.system_prompt)⟩] := by
  rw [reset_spec]
  exact store_read_write_self _ _ _ (by simp)

/-! ## Frame lemmas: operations touch only their own transcript -/

theorem read_preserved_add_message (st : Store) (a : ChatAgent) (role content : String)
    (r : Nat) (h : ¬ a.messages = r) :
    ((ChatAgent.add_message st a role content).1).read r = st.read r := by
  unfold ChatAgent.add_message
  split
  · exact store_read_write_ne st a.messages r _ h
  · rfl

theorem read_preserved_get_response (st : Store) (a : ChatAgent) (atm : Bool)
    (mdl : Option String) (cl : Option Client) (hrf : Bool) (r : Nat)
    (h : ¬ a.messages = r) :
    ((ChatAgent.get_response st a atm mdl cl hrf).1).read r = st.read r := by
  unfold ChatAgent.get_response
  cases hdo : do_chat_completion (st.read a.messages) (pyOrStrOpt mdl a.model)
      (pyOrClient cl a.client) hrf with
  | error e => rfl
  | ok response =>
    cases atm with
    | false => rfl
    | true =>
      have hadd := read_preserved_add_message st a "assistant" response r h
      cases h2 : (ChatAgent.add_message st a "assistant" response).2 with
      | ok u => simpa [h2] using hadd
      | error e => simpa [h2] using hadd

theorem read_preserved_chat (st : Store) (a : ChatAgent) (um : String) (atm : Bool)
    (mdl : Option String) (hrf : Bool) (r : Nat) (h : ¬ a.messages = r) :
    ((ChatAgent.chat st a um atm mdl hrf).1).read r = st.read r := by
  unfold ChatAgent.chat
  have h1 := read_preserved_add_message st a "user" um r h
  cases h2 : (ChatAgent.add_message st a "user" um).2 with
  | ok u =>
    simp only [h2]
    rw [read_preserved_get_response _ a atm mdl none hrf r h, h1]
  | error e => simpa [h2] using h1

theorem read_preserved_reset (st : Store) (a : ChatAgent) (r : Nat) (h : r < st.length) :
    ((ChatAgent.reset st a).1).read r = st.read r := by
  rw [reset_spec]
  rw [store_read_write_ne _ _ _ _ (Ne.symm (Nat.ne_of_lt h))]
  exact store_read_append st [] r h

/-! ## Supporting facts about the seed data -/

/-- Every seeded forecast is dated on one of the six seeded dates. -/
theorem forecast_dates_seeded : ∀ f ∈ WEATHER_FORECAST, f.date ∈ seededDates := by decide

/-- C1 counterexample: the seeded forecast for 2025-06-14 has condition
"rainy", which lies in the inclement set, although 2025-06-14 is neither
2025-06-12 nor 2025-06-13. -/
theorem weather_0614_inclement_counterexample :
    (call_weather_api_mocked "2025-06-14" "AgentsVille").1.map
        (fun f => INCLIMATE_WEATHER_CONDITIONS.contains f.condition) = some true ∧
    ¬ ("2025-06-14" = "2025-06-12" ∨ "2025-06-14" = "2025-06-13") := by decide

/-- C1 (amended): for each of the six seeded dates with city "AgentsVille",
`call_weather_api_mocked` returns exactly one record, and for any other
(date, city) it returns the absent value; the returned condition lies in the
inclement set exactly for 2025-06-12, 2025-06-13 and 2025-06-14. -/
theorem weather_seeded_lookup :
    (∀ d, d ∈ seededDates →
      ((call_weather_api_mocked d "AgentsVille").1.isSome = true ∧
        ((call_weather_api_mocked d "AgentsVille").1.map
            (fun f => INCLIMATE_WEATHER_CONDITIONS.contains f.condition) = some true ↔
          (d = "2025-06-12" ∨ d = "2025-06-13" ∨ d = "2025-06-14")))) ∧
    (∀ d c, ¬ (d ∈ seededDates ∧ c = "AgentsVille") →
      (call_weather_api_mocked d c).1 = none) := by
  constructor
  · intro d hd
    fin_cases hd <;> exact ⟨rfl, by decide⟩
  · intro d c h
    by_cases hc : c = "AgentsVille"
    · subst hc
      have hd : d ∉ seededDates := fun hm => h ⟨hm, rfl⟩
      unfold call_weather_api_mocked
      rw [if_neg (by simp)]
      split
      · rfl
      split
      · rfl
      · have hfind : WEATHER_FORECAST.find? (fun f => f.date == d) = none := by
          rw [List.find?_eq_none]
          intro f hf hbeq
          exact hd ((beq_iff_eq.mp hbeq) ▸ forecast_dates_seeded f hf)
        simp [hfind]
    · unfold call_weather_api_mocked
      rw [if_pos hc]

/-- C1 witness: the amended statement applied at 2025-06-12 (seeded) and at
2025-01-01 (outside the seeded set). -/
theorem weather_seeded_lookup_witness :
    ((call_weather_api_mocked "2025-06-12" "AgentsVille").1.isSome = true ∧
      ((call_weather_api_mocked "2025-06-12" "AgentsVille").1.map
          (fun f => INCLIMATE_WEATHER_CONDITIONS.contains f.condition) = some true ↔
        ("2025-06-12" = "2025-06-12" ∨ "2025-06-12" = "2025-06-13" ∨
          "2025-06-12" = "2025-06-14"))) ∧
    (call_weather_api_mocked "2025-01-01" "AgentsVille").1 = none :=
  ⟨weather_seeded_lookup.1 "2025-06-12" (by decide),
   weather_seeded_lookup.2 "2025-01-01" "AgentsVille" (by decide)⟩

/-- C2 counterexample: an unsupported city is a validation failure that
returns the empty/absent result yet emits no diagnostic line. -/
theorem unsupported_city_silent_counterexample :
    call_weather_api_mocked "2025-06-10" "Lisbon" = (none, []) ∧
    call_activities_api_mocked (some "2025-06-10") (some "Lisbon") none = ([], []) :=
  ⟨rfl, rfl⟩

/-- C2 (amended): validation failures of the data-store queries never raise;
they return the empty sequence / absent value.  A bad date format and an
out-of-range date each additionally emit one diagnostic line, while an
unsupported city returns the empty result with no diagnostic. -/
theorem validation_failures_degrade (d c : String) (date city : Option String)
    (ids : Option (List String)) :
    (¬ c = "AgentsVille" → call_weather_api_mocked d c = (none, [])) ∧
    (c = "AgentsVille" → strptimeValidYMD d = false →
      call_weather_api_mocked d c = (none, ["Invalid date format: " ++ d])) ∧
    (c = "AgentsVille" → strptimeValidYMD d = true →
      (pyStrLt d "2025-06-10" = true ∨ pyStrLt "2025-06-15" d = true) →
      call_weather_api_mocked d c =
        (none, ["Date " ++ d ++ " is outside the valid range (2025-06-10 - 2025-06-15)"])) ∧
    (optStrTruthy city = true → ¬ city = some "AgentsVille" →
      call_activities_api_mocked date city ids = ([], [])) ∧
    (¬ (optStrTruthy city = true ∧ ¬ city = some "AgentsVille") →
      optStrTruthy date = true → strptimeValidYMD (optStrVal date) = false →
      call_activities_api_mocked date city ids =
        ([], ["Invalid date format: " ++ optStrVal date])) ∧
    (¬ (optStrTruthy city = true ∧ ¬ city = some "AgentsVille") →
      optStrTruthy date = true → strptimeValidYMD (optStrVal date) = true →
      (pyStrLt (optStrVal date) "2025-06-10" = true ∨
        pyStrLt "2025-06-15" (optStrVal date) = true) →
      call_activities_api_mocked date city ids =
        ([], ["Date " ++ optStrVal date ++
          " is outside the valid range (2025-06-10 - 2025-06-15)"])) := by
  refine ⟨?_, ?_, ?_, ?_, ?_, ?_⟩
  · intro hc
    unfold call_weather_api_mocked
    rw [if_pos hc]
  · intro hc hfmt
    subst hc
    unfold call_weather_api_mocked
    rw [if_neg (by simp), if_pos hfmt]
  · intro hc hfmt hrange
    subst hc
    unfold call_weather_api_mocked
    rw [if_neg (by simp), if_neg (by simp [hfmt]), if_pos hrange]
  · intro h1 h2
    unfold call_activities_api_mocked
    rw [if_pos ⟨h1, h2⟩]
  · intro hcity htr hfmt
    unfold call_activities_api_mocked
    rw [if_neg hcity, if_pos ⟨htr, hfmt⟩]
  · intro hcity htr hfmt hrange
    unfold call_activities_api_mocked
    rw [if_neg hcity, if_neg (by simp [htr, hfmt]), if_pos ⟨htr, hrange⟩]

/-- C2 witness: the amended statement applied at each kind of validation
failure. -/
theorem validation_failures_degrade_witness :
    call_weather_api_mocked "2025-06-10" "Paris" = (none, []) ∧
    call_weather_api_mocked "bad" "AgentsVille" = (none, ["Invalid date format: bad"]) ∧
    call_weather_api_mocked "2025-07-01" "AgentsVille" =
      (none, ["Date 2025-07-01 is outside the valid range (2025-06-10 - 2025-06-15)"]) ∧
    call_activities_api_mocked (some "2024-01-01") (some "Paris") none = ([], []) ∧
    call_activities_api_mocked (some "junk") (some "AgentsVille") none =
      ([], ["Invalid date format: junk"]) ∧
    call_activities_api_mocked (some "2025-07-01") none none =
      ([], ["Date 2025-07-01 is outside the valid range (2025-06-10 - 2025-06-15)"]) :=
  ⟨(validation_failures_degrade "2025-06-10" "Paris" none none none).1 (by decide),
   (validation_failures_degrade "bad" "AgentsVille" none none none).2.1 rfl (by decide),
   (validation_failures_degrade "2025-07-01" "AgentsVille" none none none).2.2.1 rfl
     (by decide) (by decide),
   (validation_failures_degrade "" "" (some "2024-01-01") (some "Paris") none).2.2.2.1
     (by decide) (by decide),
   (validation_failures_degrade "" "" (some "junk") (some "AgentsVille") none).2.2.2.2.1
     (by decide) (by decide) (by decide),
   (validation_failures_degrade "" "" (some "2025-07-01") none none).2.2.2.2.2
     (by decide) (by decide) (by decide) (by decide)⟩

/-- C3: for every seeded date with city "AgentsVille", `call_activities_api_mocked`
returns exactly the seed activities whose start timestamp's date component
equals that date, in seed order, and the concatenation of the six results is
the full seed calendar (each seed activity exactly once). -/
theorem activities_by_date_partition :
    (∀ d, d ∈ seededDates →
      (call_activities_api_mocked (some d) (some "AgentsVille") none).1
        = ACTIVITY_CALENDAR.filter
            (fun e => String.mk (e.start_time.data.take 10) == d)) ∧
    (seededDates.map
        (fun d => (call_activities_api_mocked (some d) (some "AgentsVille") none).1)).flatten
      = ACTIVITY_CALENDAR := by
  constructor
  · intro d hd
    fin_cases hd <;> rfl
  · rfl

/-- C3 witness: the partition statement applied at the seeded date 2025-06-11. -/
theorem activities_by_date_partition_witness :
    (call_activities_api_mocked (some "2025-06-11") (some "AgentsVille") none).1
      = ACTIVITY_CALENDAR.filter
          (fun e => String.mk (e.start_time.data.take 10) == "2025-06-11") :=
  activities_by_date_partition.1 "2025-06-11" (by decide)

/-- C8: `call_activity_by_id_api_mocked` is total and idempotent: every seeded
id retrieves its exact seed record, any other id yields the not-found signal,
and repeated calls agree. -/
theorem activity_by_id_total_idempotent :
    (∀ a ∈ ACTIVITY_CALENDAR, (call_activity_by_id_api_mocked a.activity_id).1 = some a) ∧
    (∀ i : String, i ∉ ACTIVITY_CALENDAR.map (fun a => a.activity_id) →
      (call_activity_by_id_api_mocked i).1 = none) ∧
    (∀ i : String, call_activity_by_id_api_mocked i = call_activity_by_id_api_mocked i) := by
  refine ⟨?_, ?_, fun i => rfl⟩
  · intro a ha
    fin_cases ha <;> rfl
  · intro i hi
    have hfind : ACTIVITY_CALENDAR.find? (fun e => e.activity_id == i) = none := by
      rw [List.find?_eq_none]
      intro e he hbeq
      exact hi ((beq_iff_eq.mp hbeq) ▸ List.mem_map_of_mem _ he)
    unfold call_activity_by_id_api_mocked
    rw [hfind]

/-- C8 witness: retrieval of the first seeded record and of an absent id. -/
theorem activity_by_id_witness :
    (call_activity_by_id_api_mocked ((ACTIVITY_CALENDAR.getD 0 default).activity_id)).1
      = some (ACTIVITY_CALENDAR.getD 0 default) ∧
    (call_activity_by_id_api_mocked "no-such-id").1 = none :=
  ⟨activity_by_id_total_idempotent.1 _ (by exact List.mem_cons_self _ _),
   activity_by_id_total_idempotent.2.1 "no-such-id" (by decide)⟩

/-- C10: an empty `activity_ids` list behaves as no id filter at all, and an
empty-string `date` applies no date validation or filter. -/
theorem empty_filters_inert (date city : Option String) (ids : Option (List String)) :
    call_activities_api_mocked date city (some []) =
      call_activities_api_mocked date city none ∧
    (call_activities_api_mocked (some "") city ids).1 =
      (call_activities_api_mocked none city ids).1 := by
  constructor
  · simp [call_activities_api_mocked, optListTruthy]
  · have h0 : optStrTruthy (some "") = false := rfl
    have h1 : optStrTruthy none = false := rfl
    simp only [call_activities_api_mocked, h0, h1, Bool.false_eq_true, false_and, if_false]
    rw [apply_ite Prod.fst, apply_ite Prod.fst]

/-- C6: for every agent in any state, `reset()` restores the transcript to
exactly one system turn whose content is the agent's system-prompt template
dedented and stripped. -/
theorem reset_restores_single_system_turn (st : Store) (a : ChatAgent) :
    ((ChatAgent.reset st a).1).read ((ChatAgent.reset st a).2).messages
      = [⟨"system", pyStrip (dedent a.system_prompt)⟩] :=
  reset_transcript st a

/-- C5: after construction the transcript is exactly one system turn carrying
the dedented-and-stripped system prompt, and `chat("hello")` with a stub
collaborator answering "hi" returns `"hi"` and leaves the transcript
`[system, user:"hello", assistant:"hi"]`. -/
theorem construction_transcript_and_chat_hello :
    (∀ (st : Store) (n s : Option String) (c : Option Client) (m : Option String),
      ((ChatAgent.init st n s c m).1).read ((ChatAgent.init st n s c m).2).messages
        = [⟨"system", pyStrip (dedent ((ChatAgent.init st n s c m).2).system_prompt)⟩]) ∧
    ((ChatAgent.chat (ChatAgent.init classStore none none (some stubHiClient) (some "gpt-4")).1
        (ChatAgent.init classStore none none (some stubHiClient) (some "gpt-4")).2
        "hello" true none false).2 = Except.ok "hi") ∧
    (((ChatAgent.chat (ChatAgent.init classStore none none (some stubHiClient) (some "gpt-4")).1
        (ChatAgent.init classStore none none (some stubHiClient) (some "gpt-4")).2
        "hello" true none false).1).read
        ((ChatAgent.init classStore none none (some stubHiClient) (some "gpt-4")).2).messages
      = [⟨"system", "You are a helpful assistant."⟩, ⟨"user", "hello"⟩,
          ⟨"assistant", "hi"⟩]) := by
  refine ⟨?_, rfl, rfl⟩
  intro st n s c m
  rw [init_spec, reset_spec]
  exact store_read_write_self _ _ _ (by simp)

/-- C4: when the completion collaborator reports an error during
`chat(user_message)`, the failure propagates and the transcript is not rolled
back: the just-appended user turn remains the last turn and no assistant turn
is appended. -/
theorem chat_collaborator_failure_preserves_user_turn (st : Store) (a : ChatAgent)
    (um : String) (hrf : Bool) (e : PyError)
    (href : a.messages < st.length)
    (hfail : do_chat_completion (st.read a.messages ++ [⟨"user", um⟩]) a.model a.client hrf
      = Except.error e) :
    (ChatAgent.chat st a um true none hrf).2 = Except.error e ∧
    ((ChatAgent.chat st a um true none hrf).1).read a.messages
      = st.read a.messages ++ [⟨"user", um⟩] := by
  have hadd : ChatAgent.add_message st a "user" um
      = (st.write a.messages (st.read a.messages ++ [⟨"user", um⟩]), Except.ok ()) := by
    unfold ChatAgent.add_message
    rw [if_pos (Or.inr (Or.inl rfl))]
  have hread : (st.write a.messages (st.read a.messages ++ [⟨"user", um⟩])).read a.messages
      = st.read a.messages ++ [⟨"user", um⟩] := store_read_write_self _ _ _ href
  simp only [ChatAgent.chat, hadd, ChatAgent.get_response, hread, pyOrStrOpt, pyOrClient, hfail]
  exact ⟨trivial, trivial⟩

/-- C4 witness: a freshly constructed agent bound to the erroring stub
collaborator; `chat "hello"` fails with the runtime error and the transcript
gains exactly the user turn. -/
theorem chat_collaborator_failure_witness :
    (ChatAgent.chat (ChatAgent.init classStore none none (some errClient) (some "m")).1
        (ChatAgent.init classStore none none (some errClient) (some "m")).2
        "hello" true none false).2
      = Except.error (PyError.runtimeError "OpenAI API returned an error: boom") ∧
    ((ChatAgent.chat (ChatAgent.init classStore none none (some errClient) (some "m")).1
        (ChatAgent.init classStore none none (some errClient) (some "m")).2
        "hello" true none false).1).read
        ((ChatAgent.init classStore none none (some errClient) (some "m")).2).messages
      = ((ChatAgent.init classStore none none (some errClient) (some "m")).1).read
          ((ChatAgent.init classStore none none (some errClient) (some "m")).2).messages
        ++ [⟨"user", "hello"⟩] :=
  chat_collaborator_failure_preserves_user_turn _ _ "hello" false
    (PyError.runtimeError "OpenAI API returned an error: boom")
    (by decide) rfl

/-- C7: `add_message` with a role outside {system, user, assistant} signals
`ValueError` and leaves the transcript unchanged; with a role in that set the
turn is appended. -/
theorem add_message_role_validation (st : Store) (a : ChatAgent) (role content : String) :
    (role ∉ (["system", "user", "assistant"] : List String) →
      ChatAgent.add_message st a role content
        = (st, Except.error (PyError.valueError ("Invalid role: " ++ role))) ∧
      ((ChatAgent.add_message st a role content).1).read a.messages
        = st.read a.messages) ∧
    (role ∈ (["system", "user", "assistant"] : List String) → a.messages < st.length →
      (ChatAgent.add_message st a role content).2 = Except.ok () ∧
      ((ChatAgent.add_message st a role content).1).read a.messages
        = st.read a.messages ++ [⟨role, content⟩]) := by
  constructor
  · intro h
    have hcond : ¬ (role = "system" ∨ role = "user" ∨ role = "assistant") := by
      intro hor
      apply h
      rcases hor with h1 | h1 | h1 <;> rw [h1] <;> simp
    have heq : ChatAgent.add_message st a role content
        = (st, Except.error (PyError.valueError ("Invalid role: " ++ role))) := by
      unfold ChatAgent.add_message
      rw [if_neg hcond]
    exact ⟨heq, by rw [heq]⟩
  · intro h hlt
    have hcond : role = "system" ∨ role = "user" ∨ role = "assistant" := by
      simpa using h
    have heq : ChatAgent.add_message st a role content
        = (st.write a.messages (st.read a.messages ++ [⟨role, content⟩]), Except.ok ()) := by
      unfold ChatAgent.add_message
      rw [if_pos hcond]
    rw [heq]
    exact ⟨rfl, store_read_write_self _ _ _ hlt⟩

/-- C7 witness: `add_message("bogus", "x")` fails and changes nothing, while
`add_message("user", "x")` appends the turn. -/
theorem add_message_role_validation_witness :
    (ChatAgent.add_message classStore sampleAgent "bogus" "x"
        = (classStore, Except.error (PyError.valueError ("Invalid role: " ++ "bogus"))) ∧
      ((ChatAgent.add_message classStore sampleAgent "bogus" "x").1).read sampleAgent.messages
        = classStore.read sampleAgent.messages) ∧
    ((ChatAgent.add_message classStore sampleAgent "user" "x").2 = Except.ok () ∧
      ((ChatAgent.add_message classStore sampleAgent "user" "x").1).read sampleAgent.messages
        = classStore.read sampleAgent.messages ++ [⟨"user", "x"⟩]) :=
  ⟨(add_message_role_validation classStore sampleAgent "bogus" "x").1 (by decide),
   (add_message_role_validation classStore sampleAgent "user" "x").2 (by decide) (by decide)⟩

/-- C9: two agents constructed in sequence hold distinct transcript
references, and every operation (`add_message`, `chat`, `get_response`,
`reset`) on either one leaves the other's transcript unchanged — the
class-level default list (reference 0) is never shared after construction. -/
theorem agent_instances_are_independent (st : Store) (n1 s1 : Option String)
    (c1 : Option Client) (m1 : Option String) (n2 s2 : Option String)
    (c2 : Option Client) (m2 : Option String) (st2 : Store) (a1 a2 : ChatAgent)
    (h1 : (ChatAgent.init st n1 s1 c1 m1).2 = a1)
    (h2 : ChatAgent.init (ChatAgent.init st n1 s1 c1 m1).1 n2 s2 c2 m2 = (st2, a2)) :
    a1.messages ≠ a2.messages ∧
    (∀ role content, ((ChatAgent.add_message st2 a2 role content).1).read a1.messages
      = st2.read a1.messages) ∧
    (∀ role content, ((ChatAgent.add_message st2 a1 role content).1).read a2.messages
      = st2.read a2.messages) ∧
    (∀ um atm mdl hrf, ((ChatAgent.chat st2 a2 um atm mdl hrf).1).read a1.messages
      = st2.read a1.messages) ∧
    (∀ um atm mdl hrf, ((ChatAgent.chat st2 a1 um atm mdl hrf).1).read a2.messages
      = st2.read a2.messages) ∧
    (∀ atm mdl cl hrf, ((ChatAgent.get_response st2 a2 atm mdl cl hrf).1).read a1.messages
      = st2.read a1.messages) ∧
    (∀ atm mdl cl hrf, ((ChatAgent.get_response st2 a1 atm mdl cl hrf).1).read a2.messages
      = st2.read a2.messages) ∧
    (((ChatAgent.reset st2 a2).1).read a1.messages = st2.read a1.messages) ∧
    (((ChatAgent.reset st2 a1).1).read a2.messages = st2.read a2.messages) := by
  have e1 : a1.messages = st.length := by
    rw [← h1, init_messages_eq]
  have h2b : (ChatAgent.init (ChatAgent.init st n1 s1 c1 m1).1 n2 s2 c2 m2).2 = a2 := by
    rw [h2]
  have h2a : (ChatAgent.init (ChatAgent.init st n1 s1 c1 m1).1 n2 s2 c2 m2).1 = st2 := by
    rw [h2]
  have e2 : a2.messages = st.length + 1 := by
    rw [← h2b, init_messages_eq, init_length_eq]
  have elen : st2.length = st.length + 2 := by
    rw [← h2a, init_length_eq, init_length_eq]
  have hne21 : ¬ a2.messages = a1.messages := by omega
  have hne12 : ¬ a1.messages = a2.messages := by omega
  have hlt1 : a1.messages < st2.length := by omega
  have hlt2 : a2.messages < st2.length := by omega
  refine ⟨hne12, ?_, ?_, ?_, ?_, ?_, ?_, ?_, ?_⟩
  · exact fun role content => read_preserved_add_message st2 a2 role content a1.messages hne21
  · exact fun role content => read_preserved_add_message st2 a1 role content a2.messages hne12
  · exact fun um atm mdl hrf => read_preserved_chat st2 a2 um atm mdl hrf a1.messages hne21
  · exact fun um atm mdl hrf => read_preserved_chat st2 a1 um atm mdl hrf a2.messages hne12
  · exact fun atm mdl cl hrf =>
      read_preserved_get_response st2 a2 atm mdl cl hrf a1.messages hne21
  · exact fun atm mdl cl hrf =>
      read_preserved_get_response st2 a1 atm mdl cl hrf a2.messages hne12
  · exact read_preserved_reset st2 a2 a1.messages hlt1
  · exact read_preserved_reset st2 a1 a2.messages hlt2

/-- C9 witness: the two agents constructed in sequence from module start have
distinct references and operations on the second leave the first's transcript
untouched. -/
theorem agent_instances_witness :
    agentPair1.2.messages ≠ agentPair2.2.messages ∧
    ((ChatAgent.add_message agentPair2.1 agentPair2.2 "user" "x").1).read agentPair1.2.messages
      = agentPair2.1.read agentPair1.2.messages ∧
    ((ChatAgent.chat agentPair2.1 agentPair2.2 "hi" true none false).1).read agentPair1.2.messages
      = agentPair2.1.read agentPair1.2.messages ∧
    ((ChatAgent.reset agentPair2.1 agentPair2.2).1).read agentPair1.2.messages
      = agentPair2.1.read agentPair1.2.messages := by
  have h := agent_instances_are_independent classStore none none none none none none none none
    agentPair2.1 agentPair1.2 agentPair2.2 rfl rfl
  exact ⟨h.1, h.2.1 "user" "x", h.2.2.2.1 "hi" true none false, h.2.2.2.2.2.2.2.1⟩
